import Mathlib

/-!
Verification of the Vinyl-Store file-backed record store and its HTTP
handlers (login, create-post, delete-post, get-post, profile-update).
Each handler is embedded as a pure function from its inputs (request
fields, the collection loaded from the file, the outcome of the write)
to its observable result (HTTP status, body, the collection written).
The asynchronous ordering of the write and the response is embedded as
a trace of abstract handler operations.
-/

namespace VinylStore

/-- JavaScript string values that may be `undefined`: `none` is
`undefined`, `some s` is the string `s`. -/
abbrev JSStr := Option String

/-- Truthiness of a possibly-undefined JavaScript string: `undefined`
and the empty string are falsy. -/
def jsFalsy : JSStr → Bool
  | none => true
  | some s => s.isEmpty

/-- String interpolation of a possibly-undefined value, as in a
JavaScript template literal: `undefined` renders as "undefined". -/
def jsInterp : JSStr → String
  | none => "undefined"
  | some s => s

/-- A user record from the users collection file. `firstName` and
`lastName` are `JSStr` because `profile-update` assigns them directly
from the (duck-typed) request body, so they can become `undefined`;
`id`, `email`, `password` are never assigned after creation. -/
structure User where
  id : String
  email : String
  password : String
  firstName : JSStr
  lastName : JSStr
deriving Repr, DecidableEq

/-- A post record from the posts collection file. -/
structure Post where
  id : String
  title : String
  description : String
  date : String
  userId : String
deriving Repr, DecidableEq

/-- A user record has every field present (no `undefined`). -/
def userFieldsPresent (u : User) : Bool :=
  u.firstName.isSome && u.lastName.isSome

/-! ## Record Store operations

The spec (§4.1) names a Record Store module; the repository has no such
module under src/ — each handler inlines `find` / `map` / `filter` over
the loaded array. The three pure operations are therefore modelled from
the spec and separately related to the inlined code of each handler. -/

/-- Modelled from the spec: `findOne(records, predicate)` — linear
scan, first match in collection order, not-found as `none`. The module
itself is missing from src/; handlers inline `Array.prototype.find`. -/
def findOne {α : Type} (records : List α) (p : α → Bool) : Option α :=
  records.find? p

/-- Modelled from the spec: `upsertMutate(records, predicate, mutator)`
— every matching record gets the mutator applied, non-matching records
pass through unchanged. The module itself is missing from src/;
`profile-update` inlines it as `users.map` with a conditional in-place
assignment. -/
def upsertMutate {α : Type} (records : List α) (p : α → Bool) (m : α → α) : List α :=
  records.map (fun r => if p r then m r else r)

/-- Modelled from the spec: `removeWhere(records, predicate)` — a new
sequence excluding all records matching the predicate. The module
itself is missing from src/; `delete-post` inlines a `filter` (with a
predicate that is not the negation of its own find predicate). -/
def removeWhere {α : Type} (records : List α) (p : α → Bool) : List α :=
  records.filter (fun r => !(p r))

/-! ## delete-post (src/unnamed/part_000) -/

/-- The predicate of `posts.find` in the delete handler:
`post.id === id && post.userId === userId`. -/
def deletePredicate (id userId : String) (post : Post) : Bool :=
  post.id == id && post.userId == userId

/-- The predicate of `posts.filter` in the delete handler, verbatim
from the source: `post.id !== id && post.userId === userId`
(the records KEPT). -/
def deleteKeep (id userId : String) (post : Post) : Bool :=
  post.id != id && post.userId == userId

/-- Result of a handler over a posts collection: HTTP status, body
text, and the collection written back to the file (`none` when no
write is performed). -/
structure PostsResult where
  status : Nat
  body : String
  written : Option (List Post)
deriving Repr, DecidableEq

/-- The `end` phase of the DELETE `post/:id` handler: find the post by
id and owner, 404 if absent, otherwise filter with `deleteKeep`, write
the filtered collection, and respond 201. -/
def deletePostEnd (posts : List Post) (id userId : String) : PostsResult :=
  match posts.find? (deletePredicate id userId) with
  | none => { status := 404, body := "Post not found.", written := none }
  | some _ =>
      { status := 201
        body := "Post deleted successfully."
        written := some (posts.filter (deleteKeep id userId)) }

/-- The full DELETE `post/:id` handler: falsy checks on the id
parameter and the caller id, then the read, then `deletePostEnd`; a
read error yields 500. -/
def deletePostHandler (idParam callerId : JSStr)
    (readResult : Except String (List Post)) : PostsResult :=
  if jsFalsy idParam then
    { status := 400, body := "Post ID is required.", written := none }
  else if jsFalsy callerId then
    { status := 400, body := "User ID is required.", written := none }
  else
    match readResult with
    | Except.error _ =>
        { status := 500
          body := "An error occurred. Please try again later."
          written := none }
    | Except.ok posts => deletePostEnd posts (idParam.getD "") (callerId.getD "")

/-! ## create-post (src/routes/create-post.js) -/

/-- The title validation of POST `/post`, verbatim from the source:
`!title || title.length < 3`. -/
def titleInvalid (title : JSStr) : Bool :=
  jsFalsy title || (title.getD "").length < 3

/-- The description validation of POST `/post`, verbatim from the
source: `!description || description.length < 10`. -/
def descriptionInvalid (description : JSStr) : Bool :=
  jsFalsy description || (description.getD "").length < 10

/-- Result of POST `/post`: HTTP status, body, whether any access to
the posts file (read or write) was attempted before responding with
this status, and the collection handed to the write (`none` when no
write is attempted). -/
structure CreateResult where
  status : Nat
  body : String
  storageTouched : Bool
  written : Option (List Post)
deriving Repr, DecidableEq

/-- The POST `/post` handler: both validations run before the read
stream is even created; on success the new post (fresh id `newId`,
timestamp `date`, owner `callerId`) is pushed onto the loaded
collection and the result written back. `readResult` is the outcome
of reading the posts file, consulted only after validation passes. -/
def createPostHandler (title description : JSStr) (callerId newId date : String)
    (readResult : Except String (List Post)) : CreateResult :=
  if titleInvalid title then
    { status := 400
      body := "Title is required and should be at least 3 characters long."
      storageTouched := false, written := none }
  else if descriptionInvalid description then
    { status := 400
      body := "Description is required and should be at least 10 characters long."
      storageTouched := false, written := none }
  else
    match readResult with
    | Except.error _ =>
        { status := 500
          body := "An error occurred. Please try again later."
          storageTouched := true, written := none }
    | Except.ok posts =>
        let post : Post :=
          { id := newId, title := title.getD "", description := description.getD ""
            date := date, userId := callerId }
        { status := 201
          body := "Post created successfully."
          storageTouched := true
          written := some (posts ++ [post]) }

/-! ## get-post (src/src/routes/get-post.ts) -/

/-- The projected shape returned by GET `/post`. -/
structure PostResponse where
  title : String
  description : String
  date : String
  authorName : String
deriving Repr, DecidableEq

/-- The GET `/post` handler after both reads succeed: find the caller
in the users collection, keep the posts whose `userId` is the caller,
and project each to a `PostResponse` whose `authorName` is the template
literal over the optional chains `user?.firstName` / `user?.lastName`.
Returns the HTTP status and the response list. -/
def getPostHandler (posts : List Post) (users : List User) (userId : String) :
    Nat × List PostResponse :=
  let user := users.find? (fun u => u.id == userId)
  (200,
    (posts.filter (fun p => p.userId == userId)).map (fun p =>
      { title := p.title
        description := p.description
        date := p.date
        authorName :=
          jsInterp (user.bind User.firstName) ++ " " ++ jsInterp (user.bind User.lastName) }))

/-! ## profile-update (src/routes/profile-update.js) -/

/-- The `users.map` of PUT `/profile-update`, verbatim from the
source: each user whose `id` equals the caller id gets `firstName` and
`lastName` assigned from the request body (which may be `undefined`);
every other user passes through. -/
def profileUpdateMap (users : List User) (id : String) (firstName lastName : JSStr) :
    List User :=
  users.map (fun u =>
    if u.id == id then { u with firstName := firstName, lastName := lastName } else u)

/-- Outcome of the profile-update write callback: either an HTTP
response was sent, or the handler threw (reading `user.email` off
`undefined`) and no response was ever sent. -/
inductive UpdateOutcome where
  | responded (status : Nat) (body : String)
  | threw
deriving Repr, DecidableEq

/-- The phase of PUT `/profile-update` after the users file is read:
map the collection, pass it to `fs.writeFile`, and in the callback
either respond 500 (write error), or find the updated user and emit
the notification with `user.email` — which throws when no user
matched — before responding 200. Returns the collection handed to the
write and the outcome. -/
def profileUpdateEnd (users : List User) (id : String) (firstName lastName : JSStr)
    (writeOk : Bool) : List User × UpdateOutcome :=
  let mapped := profileUpdateMap users id firstName lastName
  (mapped,
    if writeOk then
      match mapped.find? (fun u => u.id == id) with
      | none => UpdateOutcome.threw
      | some _ => UpdateOutcome.responded 200 "Profile updated successfully."
    else UpdateOutcome.responded 500 "An error occurred. Please try again later.")

/-! ## Handler operation traces

The temporal claims (response only after persist; 500 on write
failure) are embedded as traces: the sequence of abstract operations
each handler performs, in the order the event loop runs them. A
callback-based write (`fs.writeFile`) places its callback body after
the write resolves; a fire-and-forget stream write
(`fs.createWriteStream` + `write` + `end` with no listener) resolves
or fails only after the handler has already responded. -/

/-- An abstract handler operation. -/
inductive HOp where
  | fileRead
  | writeStart
  | writeResolve
  | writeFail
  | respond (status : Nat)
deriving Repr, DecidableEq

/-- Whether a status is a success status (2xx as used here). -/
def successStatus (s : Nat) : Bool :=
  s == 200 || s == 201

/-- Whether an operation is a success response. -/
def isSuccessRespond : HOp → Bool
  | HOp.respond s => successStatus s
  | _ => false

/-- The trace of POST `/post` on the success path through validation
and read, as a function of whether the write succeeds: the stream
write is started, the 201 response is sent in the same tick, and the
write resolves or fails afterwards. -/
def createPostTrace (writeOk : Bool) : List HOp :=
  [HOp.fileRead, HOp.writeStart, HOp.respond 201,
   if writeOk then HOp.writeResolve else HOp.writeFail]

/-- The trace of DELETE `post/:id` past the 404 check: identical
shape — stream write started, 201 sent in the same tick, write
resolves or fails afterwards. -/
def deletePostTrace (writeOk : Bool) : List HOp :=
  [HOp.fileRead, HOp.writeStart, HOp.respond 201,
   if writeOk then HOp.writeResolve else HOp.writeFail]

/-- The trace of PUT `/profile-update` (with a matching user):
`fs.writeFile` is started and the response — 200 on success, 500 on
error — is sent inside its callback, after the write resolved or
failed. -/
def profileUpdateTrace (writeOk : Bool) : List HOp :=
  [HOp.fileRead, HOp.writeStart] ++
    (if writeOk then [HOp.writeResolve, HOp.respond 200]
     else [HOp.writeFail, HOp.respond 500])

/-- Helper scan: every success response in the remaining trace is
preceded (in the whole trace) by a resolved or failed write;
`settled` records whether the write has already resolved or failed. -/
def successAfterPersistGo (settled : Bool) : List HOp → Bool
  | [] => true
  | HOp.writeResolve :: rest => successAfterPersistGo true rest
  | HOp.writeFail :: rest => successAfterPersistGo true rest
  | HOp.respond s :: rest =>
      (!successStatus s || settled) && successAfterPersistGo settled rest
  | _ :: rest => successAfterPersistGo settled rest

/-- A trace sends success responses only after the write has
completed or failed. -/
def successOnlyAfterPersist (t : List HOp) : Bool :=
  successAfterPersistGo false t

/-- A trace handles a write failure correctly: if the write fails, a
500 response appears and no success response does. -/
def writeFailHandled (t : List HOp) : Bool :=
  !(t.contains HOp.writeFail) ||
    (t.contains (HOp.respond 500) && !(t.any isSuccessRespond))

/-! ## Helper lemmas -/

/-- A search over a filtered list fails when the filter predicate
excludes every record the search predicate accepts. -/
theorem find?_filter_eq_none {α : Type} (l : List α) (q p : α → Bool)
    (h : ∀ a, q a = true → p a = false) : (l.filter q).find? p = none := by
  rw [List.find?_eq_none]
  intro a ha
  have hq := (List.mem_filter.mp ha).2
  simp [h a hq]

/-- A conditional map whose condition holds nowhere on the list is the
identity. -/
theorem map_ite_eq_self {α : Type} (l : List α) (p : α → Bool) (m : α → α)
    (h : ∀ a ∈ l, p a = false) :
    l.map (fun a => if p a then m a else a) = l := by
  induction l with
  | nil => rfl
  | cons a t ih =>
      have ha := h a (List.mem_cons_self a t)
      simp only [List.map_cons, ha, Bool.false_eq_true, if_false]
      rw [ih (fun b hb => h b (List.mem_cons_of_mem a hb))]

/-! ## Claim theorems -/

/-- C1: the claim says a successful DELETE `post/:id` removes exactly
the records matching both id and owner and keeps every other record,
including posts of other users. The code filters with
`post.id !== id && post.userId === userId`, which KEEPS only the
posts of the caller, deleting every post owned by anyone else. At the
failing input below, user u1 deletes post "1" and the post "2" owned
by u2 is also removed: the written collection is empty instead of
containing the u2 post. -/
theorem deletePost_removes_other_users_posts :
    deletePostEnd
      [{ id := "1", title := "Mine", description := "a first description"
         date := "2024-01-01", userId := "u1" },
       { id := "2", title := "Theirs", description := "a second description"
         date := "2024-01-02", userId := "u2" }]
      "1" "u1"
    = { status := 201, body := "Post deleted successfully.", written := some [] } := by
  decide

/-- C5: `removeWhere` followed by `findOne` with the same predicate
yields not-found for every sequence and predicate; and in the
delete-post handler, the filtered collection that gets written never
contains a record satisfying the delete predicate (id matches and
userId matches), because the kept records all have a different id. -/
theorem removeWhere_then_findOne_none :
    (∀ (α : Type) (rs : List α) (p : α → Bool), findOne (removeWhere rs p) p = none) ∧
    (∀ (posts : List Post) (id userId : String),
      findOne (posts.filter (deleteKeep id userId)) (deletePredicate id userId) = none) := by
  constructor
  · intro α rs p
    exact find?_filter_eq_none rs (fun r => !(p r)) p (fun a ha => by
      simpa using ha)
  · intro posts id userId
    refine find?_filter_eq_none posts (deleteKeep id userId) (deletePredicate id userId) ?_
    intro a ha
    simp only [deleteKeep, Bool.and_eq_true, bne_iff_ne, ne_eq] at ha
    simp [deletePredicate, ha.1]

/-- C6: `upsertMutate` with a predicate matching zero records returns
the input sequence unchanged, for any record type, predicate and
mutator; in particular the `users.map` of PUT `/profile-update` with a
caller id matching no user record hands the loaded collection back to
the write unchanged. -/
theorem upsertMutate_no_match (α : Type) (rs : List α) (p : α → Bool) (m : α → α)
    (users : List User) (id : String) (firstName lastName : JSStr)
    (h1 : ∀ r ∈ rs, p r = false)
    (h2 : ∀ u ∈ users, (u.id == id) = false) :
    upsertMutate rs p m = rs ∧ profileUpdateMap users id firstName lastName = users := by
  constructor
  · exact map_ite_eq_self rs p m h1
  · exact map_ite_eq_self users (fun u => u.id == id)
      (fun u => { u with firstName := firstName, lastName := lastName }) h2

/-- C6 witness: a concrete no-match instance — a predicate that holds
nowhere and a caller id owned by no user leave both sequences
untouched. -/
theorem upsertMutate_no_match_witness :
    upsertMutate [1, 2, 3] (fun _ => false) (fun n => n + 10) = [1, 2, 3] ∧
    profileUpdateMap
      [{ id := "u1", email := "a@x.com", password := "hash"
         firstName := some "Ann", lastName := some "Lee" }]
      "u2" (some "New") (some "Name")
    = [{ id := "u1", email := "a@x.com", password := "hash"
         firstName := some "Ann", lastName := some "Lee" }] :=
  upsertMutate_no_match Nat [1, 2, 3] (fun _ => false) (fun n => n + 10)
    [{ id := "u1", email := "a@x.com", password := "hash"
       firstName := some "Ann", lastName := some "Lee" }]
    "u2" (some "New") (some "Name") (by decide) (by decide)

/-- C7: given non-falsy id and caller and a successful read, DELETE
`post/:id` answers 404 with body "Post not found." exactly when no
record in the collection has both the requested id and the caller as
owner; a post owned by a different user therefore falls in the 404
case, not a separate authorization failure. -/
theorem deletePost_404_iff (idParam callerId : JSStr) (posts : List Post)
    (hid : jsFalsy idParam = false) (huid : jsFalsy callerId = false) :
    (deletePostHandler idParam callerId (Except.ok posts)
        = { status := 404, body := "Post not found.", written := none })
    ↔ ¬ ∃ p ∈ posts, p.id = idParam.getD "" ∧ p.userId = callerId.getD "" := by
  simp only [deletePostHandler, hid, huid, Bool.false_eq_true, if_false]
  cases hfind : posts.find? (deletePredicate (idParam.getD "") (callerId.getD "")) with
  | none =>
      have hall := List.find?_eq_none.mp hfind
      simp only [deletePostEnd, hfind]
      constructor
      · rintro - ⟨p, hp, h1, h2⟩
        exact hall p hp (by simp [deletePredicate, h1, h2])
      · intro _
        trivial
  | some post =>
      have hmem := List.mem_of_find?_eq_some hfind
      have hpred := List.find?_some hfind
      simp only [deletePredicate, Bool.and_eq_true, beq_iff_eq] at hpred
      simp only [deletePostEnd, hfind]
      constructor
      · intro hcontra
        have h201 : (201 : Nat) = 404 := congrArg PostsResult.status hcontra
        simp at h201
      · intro hno
        exact absurd ⟨post, hmem, hpred.1, hpred.2⟩ hno

/-- C7 witness: with a non-empty collection owned by someone else, the
handler reports 404 and indeed no record matches both id and owner. -/
theorem deletePost_404_iff_witness :
    (deletePostHandler (some "1") (some "u1")
        (Except.ok [{ id := "1", title := "Theirs", description := "a second description"
                      date := "2024-01-02", userId := "u2" }])
        = { status := 404, body := "Post not found.", written := none })
    ↔ ¬ ∃ p ∈ [({ id := "1", title := "Theirs", description := "a second description"
                  date := "2024-01-02", userId := "u2" } : Post)],
          p.id = "1" ∧ p.userId = "u1" :=
  deletePost_404_iff (some "1") (some "u1")
    [{ id := "1", title := "Theirs", description := "a second description"
       date := "2024-01-02", userId := "u2" }] (by decide) (by decide)

/-- C10: when the caller id matches no user record, PUT
`/profile-update` still hands the (unchanged) collection to the file
write, and after a successful write the handler throws reading
`user.email` off `undefined` before any response is sent: the outcome
is `threw`, never an HTTP response. -/
theorem profileUpdate_unknown_user_throws (users : List User) (id : String)
    (firstName lastName : JSStr)
    (h : ∀ u ∈ users, (u.id == id) = false) :
    profileUpdateEnd users id firstName lastName true = (users, UpdateOutcome.threw) := by
  have hmap : profileUpdateMap users id firstName lastName = users :=
    map_ite_eq_self users (fun u => u.id == id)
      (fun u => { u with firstName := firstName, lastName := lastName }) h
  have hfind : users.find? (fun u => u.id == id) = none := by
    rw [List.find?_eq_none]
    intro u hu
    simp [h u hu]
  simp [profileUpdateEnd, hmap, hfind]

/-- C10 witness: a one-user collection and a caller id matching nobody
— the unchanged collection is written and the handler throws. -/
theorem profileUpdate_unknown_user_throws_witness :
    profileUpdateEnd
      [{ id := "u1", email := "a@x.com", password := "hash"
         firstName := some "Ann", lastName := some "Lee" }]
      "ghost" (some "New") (some "Name") true
    = ([{ id := "u1", email := "a@x.com", password := "hash"
          firstName := some "Ann", lastName := some "Lee" }], UpdateOutcome.threw) :=
  profileUpdate_unknown_user_throws
    [{ id := "u1", email := "a@x.com", password := "hash"
       firstName := some "Ann", lastName := some "Lee" }]
    "ghost" (some "New") (some "Name") (by decide)

/-- C3: POST `/post` answers 400 whenever the title is missing or
shorter than 3 characters, or the description is missing or shorter
than 10 characters, and in every such case no read or write of the
posts file is attempted (the validation sits before the read stream is
created), so nothing is written. -/
theorem createPost_validation_first (title description : JSStr)
    (callerId newId date : String) (readResult : Except String (List Post))
    (h : title = none ∨ (title.getD "").length < 3 ∨
         description = none ∨ (description.getD "").length < 10) :
    (createPostHandler title description callerId newId date readResult).status = 400 ∧
    (createPostHandler title description callerId newId date readResult).storageTouched
      = false ∧
    (createPostHandler title description callerId newId date readResult).written = none := by
  by_cases ht : titleInvalid title = true
  · simp [createPostHandler, ht]
  · have hd : descriptionInvalid description = true := by
      rcases h with h | h | h | h
      · exact absurd (by simp [titleInvalid, jsFalsy, h]) ht
      · exact absurd (by simp [titleInvalid, h]) ht
      · simp [descriptionInvalid, jsFalsy, h]
      · simp [descriptionInvalid, h]
    simp [createPostHandler, ht, hd]

/-- C3 witness: a 2-character title is rejected with 400 before any
storage access. -/
theorem createPost_validation_first_witness :
    (createPostHandler (some "Hi") (some "a valid description") "u1" "p1" "2024-01-01"
        (Except.ok [])).status = 400 ∧
    (createPostHandler (some "Hi") (some "a valid description") "u1" "p1" "2024-01-01"
        (Except.ok [])).storageTouched = false ∧
    (createPostHandler (some "Hi") (some "a valid description") "u1" "p1" "2024-01-01"
        (Except.ok [])).written = none :=
  createPost_validation_first (some "Hi") (some "a valid description") "u1" "p1"
    "2024-01-01" (Except.ok []) (Or.inr (Or.inl (by decide)))

/-- C2 counterexample: the claim says every mutating handler responds
with success only after the write completed or failed; on the POST
`/post` success path the 201 response is sent in the same tick as the
stream write, before the write resolves. -/
theorem createPost_responds_before_persist :
    successOnlyAfterPersist (createPostTrace true) = false := by decide

/-- C2 (amended): only PUT `/profile-update` (whose response is sent
inside the `fs.writeFile` callback) responds after the persist step
resolves; POST `/post` and DELETE `post/:id` send their 201 after
starting the stream write but before it resolves. -/
theorem only_profileUpdate_responds_after_persist :
    (∀ writeOk : Bool, successOnlyAfterPersist (profileUpdateTrace writeOk) = true) ∧
    successOnlyAfterPersist (createPostTrace true) = false ∧
    successOnlyAfterPersist (deletePostTrace true) = false := by decide

/-- C4 counterexample: the claim says a failing write makes the
handler respond 500; on the POST `/post` path with a failing write the
trace still carries the 201 success response and no 500 (the write
stream has no error listener and the response precedes the failure). -/
theorem createPost_ignores_write_failure :
    writeFailHandled (createPostTrace false) = false := by decide

/-- C4 (amended): only PUT `/profile-update` responds 500 on a write
failure (and then sends no success response); POST `/post` and DELETE
`post/:id` have already responded 201 when the write fails and never
report it. At the model level, the profile-update callback with a
failed write responds 500 for every collection and body. -/
theorem only_profileUpdate_reports_write_failure :
    writeFailHandled (profileUpdateTrace false) = true ∧
    writeFailHandled (createPostTrace false) = false ∧
    writeFailHandled (deletePostTrace false) = false ∧
    (∀ (users : List User) (id : String) (firstName lastName : JSStr),
      (profileUpdateEnd users id firstName lastName false).2
        = UpdateOutcome.responded 500 "An error occurred. Please try again later.") := by
  refine ⟨by decide, by decide, by decide, ?_⟩
  intro users id firstName lastName
  simp [profileUpdateEnd]

/-- C8 counterexample: the claim says every operation leaves user
records with all fields present for any request body; a
`profile-update` body with both names absent (`undefined`) makes the
matching record lose `firstName` and `lastName`. -/
theorem profileUpdate_drops_fields :
    profileUpdateMap
      [{ id := "u1", email := "a@x.com", password := "hash"
         firstName := some "Ann", lastName := some "Lee" }]
      "u1" none none
    = [{ id := "u1", email := "a@x.com", password := "hash"
         firstName := none, lastName := none }] ∧
    ([{ id := "u1", email := "a@x.com", password := "hash"
        firstName := none, lastName := none }] : List User).all userFieldsPresent
      = false := by decide

/-- C8 (amended): provided the request body carries both `firstName`
and `lastName` as present strings, PUT `/profile-update` leaves every
record of an all-fields-present collection with all fields present. -/
theorem profileUpdate_keeps_fields_when_body_complete
    (users : List User) (id : String) (fn ln : String)
    (h : ∀ u ∈ users, userFieldsPresent u = true) :
    ∀ u ∈ profileUpdateMap users id (some fn) (some ln), userFieldsPresent u = true := by
  intro u hu
  rw [profileUpdateMap] at hu
  rcases List.mem_map.mp hu with ⟨v, hv, rfl⟩
  by_cases hc : (v.id == id) = true
  · simp [hc, userFieldsPresent]
  · simp only [Bool.not_eq_true] at hc
    simp only [hc, Bool.false_eq_true, if_false]
    exact h v hv

/-- C8 amended-claim witness: with a complete body, the record that
comes out of the update still has all fields present. -/
theorem profileUpdate_keeps_fields_witness :
    userFieldsPresent
      { id := "u1", email := "a@x.com", password := "hash"
        firstName := some "New", lastName := some "Name" } = true :=
  profileUpdate_keeps_fields_when_body_complete
    [{ id := "u1", email := "a@x.com", password := "hash"
       firstName := some "Ann", lastName := some "Lee" }]
    "u1" "New" "Name" (by decide)
    { id := "u1", email := "a@x.com", password := "hash"
      firstName := some "New", lastName := some "Name" }
    (by decide)

/-- C9: when the caller id matches no user record, GET `/post` still
answers 200, returns one response per post owned by that id, and each
response carries the author name "undefined undefined" produced by the
template literal over the undefined optional chains. -/
theorem getPost_unknown_user (posts : List Post) (users : List User) (userId : String)
    (h : ∀ u ∈ users, (u.id == userId) = false) :
    (getPostHandler posts users userId).1 = 200 ∧
    (getPostHandler posts users userId).2.length
      = (posts.filter (fun p => p.userId == userId)).length ∧
    ∀ r ∈ (getPostHandler posts users userId).2, r.authorName = "undefined undefined" := by
  have hfind : users.find? (fun u => u.id == userId) = none := by
    rw [List.find?_eq_none]
    intro u hu
    simp [h u hu]
  refine ⟨rfl, ?_, ?_⟩
  · simp [getPostHandler]
  · intro r hr
    simp only [getPostHandler, hfind, Option.bind, List.mem_map] at hr
    rcases hr with ⟨p, hp, rfl⟩
    rfl

/-- C9 witness: an empty users collection and one post owned by the
caller — 200, one response, author name "undefined undefined". -/
theorem getPost_unknown_user_witness :
    (getPostHandler
        [{ id := "1", title := "Mine", description := "a first description"
           date := "2024-01-01", userId := "ghost" }] [] "ghost").1 = 200 ∧
    (getPostHandler
        [{ id := "1", title := "Mine", description := "a first description"
           date := "2024-01-01", userId := "ghost" }] [] "ghost").2.length
      = (([{ id := "1", title := "Mine", description := "a first description"
             date := "2024-01-01", userId := "ghost" }] : List Post).filter
          (fun p => p.userId == "ghost")).length ∧
    ∀ r ∈ (getPostHandler
        [{ id := "1", title := "Mine", description := "a first description"
           date := "2024-01-01", userId := "ghost" }] [] "ghost").2,
      r.authorName = "undefined undefined" :=
  getPost_unknown_user
    [{ id := "1", title := "Mine", description := "a first description"
       date := "2024-01-01", userId := "ghost" }] [] "ghost" (by decide)

end VinylStore
